import Mathlib

/-!
Shallow embedding of the openpilot UI scene-projection and animation code
(`selfdrive/ui/ui.cc`, `selfdrive/ui/ui.h`, `selfdrive/ui/paint.cc`).
Floating-point scalars are modelled as exact rationals; machine integers as
`Int`/`Nat`.  Each definition is translated from the corresponding C++
function, keeping the source's names and control flow.
-/

namespace OpenpilotUI

/-- UI_FREQ from ui.h: the UI tick frequency in Hz. -/
def UI_FREQ : ℕ := 20

/-- fade_duration from ui.cc line 28: time for the brake indicator to fade. -/
def fade_duration : ℚ := 3/10

/-- fade_time_step from ui.cc line 29: per-second step of the brake fade. -/
def fade_time_step : ℚ := 1 / fade_duration

/-- dynamic_follow_fade_duration from ui.cc line 31. -/
def dynamic_follow_fade_duration : ℚ := 1/2

/-- dynamic_follow_fade_step from ui.cc line 32. -/
def dynamic_follow_fade_step : ℚ := 1 / dynamic_follow_fade_duration

/-- A 3-vector of rationals, modelling `vec3` of floats. -/
structure vec3 where
  x : ℚ
  y : ℚ
  z : ℚ
deriving Repr, DecidableEq

/-- A 3x3 matrix given by rows, modelling `mat3`. -/
structure mat3 where
  r0 : vec3
  r1 : vec3
  r2 : vec3
deriving Repr, DecidableEq

/-- Dot product of two 3-vectors. -/
def dot3 (a b : vec3) : ℚ := a.x * b.x + a.y * b.y + a.z * b.z

/-- matvecmul3 from common/mat.h: matrix-vector product. -/
def matvecmul3 (m : mat3) (v : vec3) : vec3 :=
  ⟨dot3 m.r0 v, dot3 m.r1 v, dot3 m.r2 v⟩

/-- The identity 3x3 matrix. -/
def mat3_id : mat3 := ⟨⟨1,0,0⟩, ⟨0,1,0⟩, ⟨0,0,1⟩⟩

/-- A 2D affine transform as used by `nvgTransformPoint`
(six coefficients, column-major 2x3 matrix). -/
structure xform6 where
  t0 : ℚ
  t1 : ℚ
  t2 : ℚ
  t3 : ℚ
  t4 : ℚ
  t5 : ℚ
deriving Repr, DecidableEq

/-- The identity affine transform. -/
def xform6_id : xform6 := ⟨1, 0, 0, 1, 0, 0⟩

/-- nvgTransformPoint from nanovg: apply a 2x3 affine transform to a point. -/
def nvgTransformPoint (t : xform6) (sx sy : ℚ) : ℚ × ℚ :=
  (sx * t.t0 + sy * t.t2 + t.t4, sx * t.t1 + sy * t.t3 + t.t5)

/-- vertex_data from ui.h: a 2D screen-space point. -/
structure vertex_data where
  x : ℚ
  y : ℚ
deriving Repr, DecidableEq

/-- The projection-relevant fields of `UIState`: the live calibration
rotation, the chosen camera intrinsic matrix, the car-space affine
transform, and the framebuffer size. -/
structure ProjCtx where
  view_from_calib : mat3
  intrinsic_matrix : mat3
  car_space_transform : xform6
  fb_w : ℚ
  fb_h : ℚ
deriving Repr, DecidableEq

/-- The clipping margin used by `calib_frame_to_full_frame` (ui.cc line 85). -/
def proj_margin : ℚ := 500

/-- calib_frame_to_full_frame from ui.cc lines 84-96: project a point in car
space to full-frame image space.  Returns the written `vertex_data` together
with the boolean result (true when the pixel is within `proj_margin` of the
framebuffer bounds).  Division is exact rational division; the float code
has the same value whenever the depth `KEp.z` is nonzero. -/
def calib_frame_to_full_frame (s : ProjCtx) (in_x in_y in_z : ℚ) :
    vertex_data × Bool :=
  let pt : vec3 := ⟨in_x, in_y, in_z⟩
  let Ep := matvecmul3 s.view_from_calib pt
  let KEp := matvecmul3 s.intrinsic_matrix Ep
  let x := KEp.x / KEp.z
  let y := KEp.y / KEp.z
  let out := nvgTransformPoint s.car_space_transform x y
  (⟨out.1, out.2⟩,
    decide (-proj_margin ≤ out.1) && decide (out.1 ≤ s.fb_w + proj_margin) &&
    decide (-proj_margin ≤ out.2) && decide (out.2 ≤ s.fb_h + proj_margin))

/-- brake indicator fade update from ui.cc lines 447-458 (the write of
`brake_indicator_last_t` is the caller passing `dt = t - last_t`). -/
def brake_indicator_update (brake_percent : ℤ) (alpha dt : ℚ) : ℚ :=
  if brake_percent > 50 then
    if alpha < 1 then
      let a := alpha + fade_time_step * dt
      if a > 1 then 1 else a
    else alpha
  else if alpha > 0 then
    let a := alpha - fade_time_step * dt
    if a < 0 then 0 else a
  else alpha

/-- one_pedal_fade update from ui.cc lines 461-473.  `session_ok` models the
guard `t - sessionInitTime > 3`; `one_pedal_cond` models the compound
condition on car state, UI status and params on lines 462-463. -/
def one_pedal_fade_update (session_ok one_pedal_cond : Bool) (fade dt : ℚ) : ℚ :=
  if session_ok then
    if one_pedal_cond then
      let f := fade + fade_time_step * dt
      if f > 1 then 1 else f
    else if fade > -1 then
      let f := fade - fade_time_step * dt
      if f < -1 then -1 else f
    else fade
  else fade

/-- dynamic_follow_level_ui update from ui.cc lines 477-491. -/
def dynamic_follow_update (level ui dt : ℚ) : ℚ :=
  if level ≠ ui then
    if level > ui then
      let u := ui + dynamic_follow_fade_step * dt
      if u > level then level else u
    else
      let u := ui - dynamic_follow_fade_step * dt
      if u < level then level else u
  else ui

/-- One forward-walk projection of `update_line_data` (ui.cc line 142):
the sample at index `i` offset laterally by `-y_off` and vertically by
`z_off`. -/
def line_point_fwd (s : ProjCtx) (lx ly lz : ℕ → ℚ) (y_off z_off : ℚ)
    (i : ℕ) : vertex_data × Bool :=
  calib_frame_to_full_frame s (lx i) (ly i - y_off) (lz i + z_off)

/-- One backward-walk projection of `update_line_data` (ui.cc line 145):
the sample at index `i` offset laterally by `+y_off`. -/
def line_point_bwd (s : ProjCtx) (lx ly lz : ℕ → ℚ) (y_off z_off : ℚ)
    (i : ℕ) : vertex_data × Bool :=
  calib_frame_to_full_frame s (lx i) (ly i + y_off) (lz i + z_off)

/-- update_line_data from ui.cc lines 137-149, as the sequence of vertices
actually kept in `pvd->v`.  The C code writes each projected vertex into the
buffer and advances the write pointer only when `calib_frame_to_full_frame`
returned true, so a rejected vertex is overwritten by the next write; the
retained buffer contents are exactly the accepted vertices, forward walk
over indices `0..max_idx` then backward walk over the same indices. -/
def update_line_data_vertices (s : ProjCtx) (lx ly lz : ℕ → ℚ)
    (y_off z_off : ℚ) (max_idx : ℕ) : List vertex_data :=
  ((List.range (max_idx + 1)).filterMap (fun i =>
      let r := line_point_fwd s lx ly lz y_off z_off i
      if r.2 then some r.1 else none)) ++
  ((List.range (max_idx + 1)).reverse.filterMap (fun i =>
      let r := line_point_bwd s lx ly lz y_off z_off i
      if r.2 then some r.1 else none))

/-- The `cnt` field written by update_line_data (ui.cc line 147):
`pvd->cnt = v - pvd->v`, the number of accepted vertices. -/
def update_line_data_cnt (s : ProjCtx) (lx ly lz : ℕ → ℚ)
    (y_off z_off : ℚ) (max_idx : ℕ) : ℕ :=
  (update_line_data_vertices s lx ly lz y_off z_off max_idx).length

/-- Helper loop of get_path_length_idx: mirrors
`for (i = 0; i < TRAJECTORY_SIZE && line_x[i] < path_height; ++i) max_idx = i`.
`fuel` counts the remaining iterations allowed by `i < TRAJECTORY_SIZE`. -/
def get_path_length_idx_go (lx : ℕ → ℚ) (path_height : ℚ) :
    ℕ → ℕ → ℕ → ℕ
  | 0, _, m => m
  | fuel + 1, i, m => if lx i < path_height then
      get_path_length_idx_go lx path_height fuel (i + 1) i
    else m

/-- get_path_length_idx from ui.cc lines 117-124, with the trajectory size
`T` (TRAJECTORY_SIZE) as a parameter. -/
def get_path_length_idx (lx : ℕ → ℚ) (T : ℕ) (path_height : ℚ) : ℕ :=
  get_path_length_idx_go lx path_height T 0 0

/-- std::clamp as used in ui.cc: `clamp(v, lo, hi)`. -/
def stdClamp (v lo hi : ℚ) : ℚ :=
  if v < lo then lo else if hi < v then hi else v

/-- The path draw distance computed by update_model (ui.cc lines 155-156 and
178-182).  `posX_last` is `model_position.getX()[TRAJECTORY_SIZE - 1]`;
`minDraw`/`maxDraw` are the configured MIN_DRAW_DISTANCE/MAX_DRAW_DISTANCE
constants (defined outside this slice, passed as parameters); `leadProb` and
`leadX0` come from `model.getLeadsV3()[0]`. -/
def update_model_max_distance (posX_last minDraw maxDraw leadProb leadX0 : ℚ) :
    ℚ :=
  let max_distance := stdClamp posX_last minDraw maxDraw
  if leadProb > 1/2 then
    let lead_d := leadX0 * 2
    stdClamp (lead_d - min (lead_d * (35/100)) 10) 0 max_distance
  else
    max_distance

/-- update_leads from ui.cc lines 126-135: for each of the two leads, the
scene lead vertex is recomputed only when that lead's model probability
exceeds 0.5; otherwise the previously stored vertex is kept.  `posX`/`posZ`
are `model.getPosition()` coordinates, `T` is TRAJECTORY_SIZE. -/
def update_leads (s : ProjCtx) (posX posZ : ℕ → ℚ) (T : ℕ)
    (leadProb leadX0 leadY0 : Fin 2 → ℚ) (lead_vertices : Fin 2 → vertex_data) :
    Fin 2 → vertex_data :=
  fun i =>
    if leadProb i > 1/2 then
      let z := posZ (get_path_length_idx posX T (leadX0 i))
      (calib_frame_to_full_frame s (leadX0 i) (leadY0 i) (z + 122/100)).1
    else lead_vertices i

/-- The lead-chevron draw decision of ui_draw_world (paint.cc lines 290-300):
which of the two leads get a chevron this frame.  `longitudinal_control` is
`scene.longitudinal_control`; probabilities and x positions come from the
current modelV2 message. -/
def ui_draw_world_leads (longitudinal_control : Bool)
    (prob1 prob2 x1 x2 : ℚ) : Bool × Bool :=
  if longitudinal_control then
    (decide (prob1 > 1/2),
     decide (prob2 > 1/2) && decide (|x1 - x2| > 3))
  else (false, false)

/-- UIStatus from ui.h lines 810-815. -/
inductive UIStatus where
  | disengaged
  | engaged
  | warning
  | alert
deriving Repr, DecidableEq

/-- The screen-dim fields of `UIScene`/`UIState` read and written by the
screen-dim section of update_state (ui.cc lines 216-259), with the tier
value table `screen_dim_modes_v` as a total function on tier indices. -/
structure DimState where
  started : Bool
  status : UIStatus
  screen_dim_mode : ℕ
  screen_dim_mode_max : ℕ
  screen_dim_mode_cur : ℕ
  screen_dim_mode_last : ℕ
  screen_dim_fade : ℚ
  screen_dim_fade_step : ℚ
  screen_dim_fade_dur_up : ℚ
  screen_dim_fade_dur_down : ℚ
  screen_dim_modes_v : ℕ → ℚ

/-- The tier-selection section of the screen-dim update, ui.cc lines
223-235: a warning bumps the current tier one step up clamped at the
maximum tier; a critical alert forces the maximum tier and assigns
`screen_dim_fade` directly; otherwise the configured tier is used. -/
def screen_dim_select_mode (s0 : DimState) : DimState :=
  if s0.status = UIStatus.warning then
    let c := s0.screen_dim_mode + 1
    { s0 with screen_dim_mode_cur :=
        if c > s0.screen_dim_mode_max then s0.screen_dim_mode_max else c }
  else if s0.status = UIStatus.alert then
    { s0 with screen_dim_mode_cur := s0.screen_dim_mode_max,
              screen_dim_fade := s0.screen_dim_modes_v s0.screen_dim_mode_max }
  else
    { s0 with screen_dim_mode_cur := s0.screen_dim_mode }

/-- The fade-step recomputation of the screen-dim update, ui.cc lines
237-240: on a tier change the step is the tier-value difference divided by
the up- or down- fade duration. -/
def screen_dim_set_step (s1 : DimState) : DimState :=
  if s1.screen_dim_mode_cur ≠ s1.screen_dim_mode_last then
    let step := s1.screen_dim_modes_v s1.screen_dim_mode_cur -
                s1.screen_dim_modes_v s1.screen_dim_mode_last
    { s1 with screen_dim_fade_step :=
        step / (if step > 0 then s1.screen_dim_fade_dur_up
                else s1.screen_dim_fade_dur_down) }
  else s1

/-- The easing section of the screen-dim update, ui.cc lines 242-251:
`screen_dim_fade` moves by `screen_dim_fade_step * dt` toward the current
tier's value and is clamped at it. -/
def screen_dim_ease (s2 : DimState) (dt : ℚ) : DimState :=
  let tgt : ℚ := s2.screen_dim_modes_v s2.screen_dim_mode_cur
  if s2.screen_dim_fade > tgt then
    let f := s2.screen_dim_fade + s2.screen_dim_fade_step * dt
    { s2 with screen_dim_fade := if f < tgt then tgt else f }
  else if s2.screen_dim_fade < tgt then
    let f := s2.screen_dim_fade + s2.screen_dim_fade_step * dt
    { s2 with screen_dim_fade := if f > tgt then tgt else f }
  else s2

/-- The screen-dim section of update_state, ui.cc lines 216-259 (the touch
rectangle written on lines 221 and 256 is layout state not used by the dim
logic and is omitted).  `dt` stands for `t - screen_dim_fade_last_t`; the
trailing assignments `screen_dim_mode_last = screen_dim_mode_cur` and
`screen_dim_fade_last_t = t` are lines 258-259. -/
def screen_dim_update (s0 : DimState) (dt : ℚ) : DimState :=
  if s0.started then
    let s3 := screen_dim_ease (screen_dim_set_step (screen_dim_select_mode s0)) dt
    { s3 with screen_dim_mode_last := s3.screen_dim_mode_cur }
  else
    { s0 with screen_dim_mode_cur := s0.screen_dim_mode_max,
              screen_dim_fade := s0.screen_dim_modes_v s0.screen_dim_mode_max,
              screen_dim_mode_last := s0.screen_dim_mode_max }

/-- Modelled from the spec: the dimmest tier's target value.  The spec calls
a tier dimmer when its brightness multiplier `screen_dim_modes_v[i]` is
smaller (Device::updateBrightness, ui.cc line 692, multiplies the backlight
by `screen_dim_fade`), so the dimmest of the three tiers is the least of the
three table values. -/
def dimmest_tier_value (s : DimState) : ℚ :=
  min (min (s.screen_dim_modes_v 0) (s.screen_dim_modes_v 1))
    (s.screen_dim_modes_v 2)

/-- The brightness scaling of Device::updateBrightness, ui.cc lines 691-693:
`std::clamp(int(float(brightness) * screen_dim_fade), 1, 100)`.  The cast
to int truncates toward zero; for the nonnegative products that occur this
is the floor. -/
def apply_screen_dim (brightness : ℚ) (fade : ℚ) : ℤ :=
  let b := ⌊brightness * fade⌋
  if b < 1 then 1 else if b > 100 then 100 else b

/-- cereal PandaState::PandaType, with the UNKNOWN sentinel. -/
inductive PandaType where
  | unknown
  | whitePanda
  | greyPanda
  | blackPanda
  | pedal
  | uno
  | dos
deriving Repr, DecidableEq

/-- The pandaState branch of update_state, ui.cc lines 354-360.  `updated`
is `sm.updated("pandaState")`; `frame` and `rcv_frame` are the SubMaster
frame counters (`rcv_frame ≤ frame`, so unsigned subtraction agrees with
truncated Nat subtraction); `incoming` is the type carried by a fresh
message and `cur` the currently displayed value. -/
def pandaState_update (updated : Bool) (frame rcv_frame : ℕ)
    (incoming cur : PandaType) : PandaType :=
  if updated then incoming
  else if frame - rcv_frame > 5 * UI_FREQ then PandaType.unknown
  else cur

/-- world_objects_visible transition for one tick: ui.cc lines 337-338 set
the flag whenever a liveCalibration message arrived this tick, and nothing
else ever sets it while onroad. -/
def world_visible_step (visible : Bool) (calib_updated : Bool) : Bool :=
  if calib_updated then true else visible

/-- world_objects_visible after a sequence of ticks, starting from the
ui_init_vision initialisation `world_objects_visible = false`
(ui.cc line 100).  Each list entry tells whether a liveCalibration message
arrived in that tick. -/
def world_visible_after (ticks : List Bool) : Bool :=
  ticks.foldl world_visible_step false

/-- The world-geometry guard of ui_draw_vision (paint.cc lines 1697-1699):
`ui_draw_world` (lane lines, road edges, path, leads) runs exactly when
`scene.world_objects_visible` is set. -/
def ui_draw_vision_draws_world (world_objects_visible : Bool) : Bool :=
  world_objects_visible

/-- Whether the world geometry is drawn in tick `k` of a run: the draw in a
tick happens after that tick's update_state, so it sees the flag after the
first `k+1` ticks have been processed. -/
def world_drawn_in_tick (ticks : List Bool) (k : ℕ) : Bool :=
  ui_draw_vision_draws_world (world_visible_after (ticks.take (k + 1)))

/-- Rect from ui.h lines 766-775 (pixel rectangle with int fields). -/
structure Rect where
  x : ℤ
  y : ℤ
  w : ℤ
  h : ℤ
deriving Repr, DecidableEq

/-- bdr_s from ui.h line 797. -/
def bdr_s : ℤ := 30

/-- footer_h from ui.h line 799. -/
def footer_h : ℤ := 280

/-- brake_size from ui.h line 802. -/
def brake_size : ℤ := 90

/-- face_wheel_radius from ui.h line 803. -/
def face_wheel_radius : ℤ := 88

/-- C truncation of a float to int (rounds toward zero). -/
def ratTruncToInt (q : ℚ) : ℤ :=
  if q < 0 then -⌊-q⌋ else ⌊q⌋

/-- The layout arithmetic of ui_draw_measures (paint.cc lines 415-451 and
1203-1250) restricted to what determines the published rectangles: the
bounding `measure_slots_rect` and, for each slot index `i`, the touch
rectangle written at line 1250.  All `/` on ints are C int divisions
(truncation toward zero, `Int.tdiv`); `slot_aspect_ratio_ratio` is a float
ratio, modelled as an exact rational.  Font sizes and the drawn strings do
not feed into any rectangle and are omitted. -/
def ui_draw_measures_rects (cur maxs : ℕ) (fb_w fb_h : ℤ) :
    Rect × (ℕ → Rect) :=
  let curz : ℤ := (cur : ℤ)
  let maxspeed_rect : Rect := ⟨bdr_s * 2, Int.tdiv (bdr_s * 3) 2, 184, 202⟩
  let center_x0 : ℤ := fb_w - face_wheel_radius - bdr_s * 2
  let brake_y : ℤ := fb_h - Int.tdiv footer_h 2
  let y_min : ℤ := maxspeed_rect.y + maxspeed_rect.h + Int.tdiv bdr_s 2
  let y_max : ℤ := brake_y - brake_size - Int.tdiv bdr_s 2
  let y_rng : ℤ := y_max - y_min
  let slot_y_rng : ℤ :=
    if cur ≤ 4 then Int.tdiv y_rng (if cur < 3 then 3 else curz)
    else Int.tdiv y_rng (maxs : ℤ) * 2
  let slot_y_rng_orig : ℤ := Int.tdiv y_rng (maxs : ℤ) * 2
  let slot_aspect_ratio_ratio : ℚ := (slot_y_rng : ℚ) / (slot_y_rng_orig : ℚ)
  let y_mid : ℤ := Int.tdiv (y_max + y_min) 2
  let slots_y_rng : ℤ := slot_y_rng * (if cur ≤ 5 then curz else 5)
  let slots_y_min : ℤ := y_mid - Int.tdiv slots_y_rng 2
  let slots_r : ℤ :=
    if cur ≤ 4 then ratTruncToInt ((brake_size : ℚ) * slot_aspect_ratio_ratio + 12)
    else brake_size + 6 + (if cur ≤ 5 then 6 else 0)
  let slots_w : ℤ :=
    if cur ≤ 4 then 2 * slots_r
    else (if cur ≤ 5 then 2 else 4) * slots_r
  let slots_x : ℤ :=
    if cur ≤ 4 then
      let slots_r_orig : ℤ := brake_size + 6 + (if cur ≤ 5 then 6 else 0)
      (center_x0 - (slots_r - slots_r_orig)) - slots_r
    else if cur ≤ 5 then center_x0 - slots_r
    else center_x0 - 3 * slots_r
  let slots_rect : Rect := ⟨slots_x, slots_y_min, slots_w, slots_y_rng⟩
  (slots_rect, fun i =>
    let slot_x : ℤ := slots_rect.x +
      (if cur ≤ 5 then 0 else if i < 5 then slots_r * 2 else 0)
    let slot_y : ℤ := slots_rect.y + ((i % 5 : ℕ) : ℤ) * slot_y_rng
    ⟨slot_x, slot_y, slots_r * 2, slot_y_rng⟩)

/-- The scene fields read and written by ui_draw_measures. -/
@[ext]
structure MeasuresState where
  measure_cur_num_slots : ℕ
  measure_max_num_slots : ℕ
  fb_w : ℤ
  fb_h : ℤ
  measure_slots_rect : Rect
  measure_slot_touch_rects : ℕ → Rect

/-- One run of ui_draw_measures over the scene state: when
`measure_cur_num_slots` is nonzero (paint.cc line 416) it recomputes the
bounding rectangle (line 451) and the touch rectangle of every active slot
(line 1250), leaving inactive slots' stored rectangles as they were;
when zero it does nothing. -/
def ui_draw_measures_layout (s : MeasuresState) : MeasuresState :=
  if s.measure_cur_num_slots ≠ 0 then
    let r := ui_draw_measures_rects s.measure_cur_num_slots
      s.measure_max_num_slots s.fb_w s.fb_h
    { s with measure_slots_rect := r.1,
             measure_slot_touch_rects := fun i =>
               if i < s.measure_cur_num_slots then r.2 i
               else s.measure_slot_touch_rects i }
  else s

/-- Repeated brake-indicator updates: one `update_state` call per entry of
`dts`, each entry being the wall-clock time elapsed since the previous
call, with the braking condition (`brake_percent`) held fixed. -/
def brake_ticks (brake_percent : ℤ) (alpha : ℚ) (dts : List ℚ) : ℚ :=
  dts.foldl (fun a d => brake_indicator_update brake_percent a d) alpha

/-! ## Helper lemmas -/

theorem fade_time_step_eq : fade_time_step = 10/3 := by
  norm_num [fade_time_step, fade_duration]

theorem dynamic_follow_fade_step_eq : dynamic_follow_fade_step = 2 := by
  norm_num [dynamic_follow_fade_step, dynamic_follow_fade_duration]

theorem brake_update_bounds (bp : ℤ) {alpha dt : ℚ}
    (hd : 0 ≤ dt) (h0 : 0 ≤ alpha) (h1 : alpha ≤ 1) :
    0 ≤ brake_indicator_update bp alpha dt ∧
      brake_indicator_update bp alpha dt ≤ 1 := by
  have hm : 0 ≤ fade_time_step * dt := by
    rw [fade_time_step_eq]; positivity
  unfold brake_indicator_update
  dsimp only
  split_ifs <;> constructor <;> linarith

theorem brake_update_dir (bp : ℤ) {alpha dt : ℚ}
    (hd : 0 ≤ dt) (_h0 : 0 ≤ alpha) (_h1 : alpha ≤ 1) :
    (bp > 50 → alpha ≤ brake_indicator_update bp alpha dt) ∧
      (¬ bp > 50 → brake_indicator_update bp alpha dt ≤ alpha) := by
  have hm : 0 ≤ fade_time_step * dt := by
    rw [fade_time_step_eq]; positivity
  unfold brake_indicator_update
  dsimp only
  split_ifs <;> constructor <;> intro hh <;> linarith

theorem one_pedal_update_bounds (so oc : Bool) {fade dt : ℚ}
    (hd : 0 ≤ dt) (h0 : -1 ≤ fade) (h1 : fade ≤ 1) :
    -1 ≤ one_pedal_fade_update so oc fade dt ∧
      one_pedal_fade_update so oc fade dt ≤ 1 := by
  have hm : 0 ≤ fade_time_step * dt := by
    rw [fade_time_step_eq]; positivity
  unfold one_pedal_fade_update
  dsimp only
  split_ifs <;> constructor <;> linarith

theorem dynamic_follow_update_bounds {level ui dt : ℚ} (hd : 0 ≤ dt) :
    min ui level ≤ dynamic_follow_update level ui dt ∧
      dynamic_follow_update level ui dt ≤ max ui level := by
  have hm : 0 ≤ dynamic_follow_fade_step * dt := by
    rw [dynamic_follow_fade_step_eq]; positivity
  have hl1 := min_le_left ui level
  have hl2 := min_le_right ui level
  have hr1 := le_max_left ui level
  have hr2 := le_max_right ui level
  unfold dynamic_follow_update
  dsimp only
  split_ifs <;> constructor <;> linarith

/-! ## Claims -/

/-- Claim C1: for every animation/fade controller state and every elapsed
time `dt ≥ 0`, one update step keeps each controller's value in its declared
domain and never moves it past its target: `brake_indicator_alpha` stays in
`[0,1]` and only moves toward (and stops at) its target 1 when braking or 0
otherwise; `one_pedal_fade` stays in `[-1,1]`; and
`dynamic_follow_level_ui` stays between its old value and
`dynamic_follow_level`, so it is clamped at the target and never overshoots
it. -/
theorem C1_controller_step_invariants (bp : ℤ)
    (alpha dt1 : ℚ) (so oc : Bool) (fade dt2 : ℚ) (level ui dt3 : ℚ)
    (hd1 : 0 ≤ dt1) (hd2 : 0 ≤ dt2) (hd3 : 0 ≤ dt3)
    (ha0 : 0 ≤ alpha) (ha1 : alpha ≤ 1)
    (hf0 : -1 ≤ fade) (hf1 : fade ≤ 1) :
    (0 ≤ brake_indicator_update bp alpha dt1 ∧
      brake_indicator_update bp alpha dt1 ≤ 1 ∧
      (bp > 50 → alpha ≤ brake_indicator_update bp alpha dt1) ∧
      (¬ bp > 50 → brake_indicator_update bp alpha dt1 ≤ alpha)) ∧
    (-1 ≤ one_pedal_fade_update so oc fade dt2 ∧
      one_pedal_fade_update so oc fade dt2 ≤ 1) ∧
    (min ui level ≤ dynamic_follow_update level ui dt3 ∧
      dynamic_follow_update level ui dt3 ≤ max ui level) :=
  ⟨⟨(brake_update_bounds bp hd1 ha0 ha1).1,
    (brake_update_bounds bp hd1 ha0 ha1).2,
    (brake_update_dir bp hd1 ha0 ha1).1,
    (brake_update_dir bp hd1 ha0 ha1).2⟩,
   one_pedal_update_bounds so oc hd2 hf0 hf1,
   dynamic_follow_update_bounds hd3⟩

/-- Witness for C1 at a concrete state. -/
theorem C1_controller_step_invariants_witness :
    (0 ≤ brake_indicator_update 60 (1/2) (1/10) ∧
      brake_indicator_update 60 (1/2) (1/10) ≤ 1 ∧
      ((60:ℤ) > 50 → (1/2:ℚ) ≤ brake_indicator_update 60 (1/2) (1/10)) ∧
      (¬ (60:ℤ) > 50 → brake_indicator_update 60 (1/2) (1/10) ≤ 1/2)) ∧
    (-1 ≤ one_pedal_fade_update true false 0 (1/10) ∧
      one_pedal_fade_update true false 0 (1/10) ≤ 1) ∧
    (min (0:ℚ) 2 ≤ dynamic_follow_update 2 0 (1/10) ∧
      dynamic_follow_update 2 0 (1/10) ≤ max (0:ℚ) 2) :=
  C1_controller_step_invariants 60 (1/2) (1/10) true false 0 (1/10) 2 0 (1/10)
    (by norm_num) (by norm_num) (by norm_num) (by norm_num) (by norm_num)
    (by norm_num) (by norm_num)

theorem brake_ticks_formula (bp : ℤ) (hbp : bp > 50) :
    ∀ (dts : List ℚ), (∀ d ∈ dts, 0 ≤ d) →
      ∀ (alpha : ℚ), 0 ≤ alpha → alpha ≤ 1 →
        brake_ticks bp alpha dts = min 1 (alpha + fade_time_step * dts.sum) := by
  intro dts
  induction dts with
  | nil =>
    intro _ alpha _ h1
    simp only [brake_ticks, List.foldl_nil, List.sum_nil, mul_zero, add_zero]
    exact (min_eq_right h1).symm
  | cons d ds ih =>
    intro hd alpha h0 h1
    have hd0 : 0 ≤ d := hd d (List.mem_cons_self d ds)
    have hds : ∀ x ∈ ds, 0 ≤ x := fun x hx => hd x (List.mem_cons_of_mem d hx)
    have hsum : 0 ≤ ds.sum := List.sum_nonneg hds
    have hm : 0 ≤ fade_time_step * d := by
      rw [fade_time_step_eq]; positivity
    have hms : 0 ≤ fade_time_step * ds.sum := by
      rw [fade_time_step_eq]; positivity
    have hstep : brake_ticks bp alpha (d :: ds) =
        brake_ticks bp (brake_indicator_update bp alpha d) ds := rfl
    rw [hstep]
    rcases brake_update_bounds bp hd0 h0 h1 with ⟨hb0, hb1⟩
    rw [ih hds _ hb0 hb1]
    unfold brake_indicator_update
    rw [if_pos hbp, List.sum_cons]
    dsimp only
    split_ifs with h h2
    · rw [min_eq_left (by linarith), min_eq_left (by rw [mul_add]; linarith)]
    · congr 1
      rw [mul_add]
      ring
    · have ha : alpha = 1 := le_antisymm h1 (not_lt.mp h)
      rw [ha, min_eq_left (by linarith),
        min_eq_left (by rw [mul_add]; linarith)]

/-- Claim C8: starting from `brake_indicator_alpha = 0` with the braking
condition held (`brake_percent > 50`, target 1) and fade step `1/0.3` per
second, after a run of updates whose elapsed times are each nonnegative and
sum to `0.3 s`, the value is at least `0.99` and at most `1`. -/
theorem C8_brake_fade_scenario (bp : ℤ) (dts : List ℚ) (hbp : bp > 50)
    (hd : ∀ d ∈ dts, 0 ≤ d) (hsum : dts.sum = 3/10) :
    99/100 ≤ brake_ticks bp 0 dts ∧ brake_ticks bp 0 dts ≤ 1 := by
  rw [brake_ticks_formula bp hbp dts hd 0 le_rfl (by norm_num), hsum,
    fade_time_step_eq]
  norm_num

/-- Witness for C8: two ticks of 0.15 s each starting from 0. -/
theorem C8_brake_fade_scenario_witness :
    99/100 ≤ brake_ticks 51 0 [3/20, 3/20] ∧
      brake_ticks 51 0 [3/20, 3/20] ≤ 1 :=
  C8_brake_fade_scenario 51 [3/20, 3/20] (by norm_num)
    (by
      intro d hd
      simp only [List.mem_cons, List.not_mem_nil, or_false, or_self] at hd
      rw [hd]
      norm_num)
    (by norm_num)

end OpenpilotUI

namespace OpenpilotUI

/-- Whether every projection attempted by update_line_data for indices
`0..max_idx` (both the forward and the backward walk) is accepted as
visible. -/
def update_line_data_all_visible (s : ProjCtx) (lx ly lz : ℕ → ℚ)
    (y_off z_off : ℚ) (max_idx : ℕ) : Bool :=
  ((List.range (max_idx + 1)).all
      (fun i => (line_point_fwd s lx ly lz y_off z_off i).2)) &&
  ((List.range (max_idx + 1)).all
      (fun i => (line_point_bwd s lx ly lz y_off z_off i).2))

theorem length_filterMap_accepted_of_all {l : List ℕ}
    {g : ℕ → vertex_data × Bool} (h : ∀ i ∈ l, (g i).2 = true) :
    (l.filterMap (fun i =>
        let r := g i
        if r.2 then some r.1 else none)).length = l.length := by
  induction l with
  | nil => rfl
  | cons a as ih =>
    rw [List.filterMap_cons]
    dsimp only
    rw [if_pos (h a (List.mem_cons_self a as))]
    simp only [List.length_cons]
    rw [ih (fun i hi => h i (List.mem_cons_of_mem a hi))]

/-- Claim C2 (amended): `cnt` equals the number of accepted (visible)
projections, so `cnt ≤ 2*(max_idx+1)` always, `cnt ≤ 2*TRAJECTORY_SIZE`
whenever `max_idx ≤ TRAJECTORY_SIZE - 1` (the validating assertion at
ui.cc line 148 never fires), and `cnt = 2*(max_idx+1)` exactly when every
projected vertex of the ribbon is visible. -/
theorem C2_ribbon_cnt_bounds (s : ProjCtx) (lx ly lz : ℕ → ℚ)
    (y_off z_off : ℚ) (max_idx T : ℕ) :
    update_line_data_cnt s lx ly lz y_off z_off max_idx ≤ 2 * (max_idx + 1) ∧
    (max_idx + 1 ≤ T →
      update_line_data_cnt s lx ly lz y_off z_off max_idx ≤ 2 * T) ∧
    (update_line_data_all_visible s lx ly lz y_off z_off max_idx = true →
      update_line_data_cnt s lx ly lz y_off z_off max_idx =
        2 * (max_idx + 1)) := by
  have hfwd := List.length_filterMap_le
    (fun i => let r := line_point_fwd s lx ly lz y_off z_off i
              if r.2 then some r.1 else none)
    (List.range (max_idx + 1))
  have hbwd := List.length_filterMap_le
    (fun i => let r := line_point_bwd s lx ly lz y_off z_off i
              if r.2 then some r.1 else none)
    (List.range (max_idx + 1)).reverse
  rw [List.length_range] at hfwd
  rw [List.length_reverse, List.length_range] at hbwd
  have hcnt : update_line_data_cnt s lx ly lz y_off z_off max_idx =
      ((List.range (max_idx + 1)).filterMap (fun i =>
        let r := line_point_fwd s lx ly lz y_off z_off i
        if r.2 then some r.1 else none)).length +
      ((List.range (max_idx + 1)).reverse.filterMap (fun i =>
        let r := line_point_bwd s lx ly lz y_off z_off i
        if r.2 then some r.1 else none)).length := by
    unfold update_line_data_cnt update_line_data_vertices
    rw [List.length_append]
  refine ⟨by omega, fun hT => by omega, fun hvis => ?_⟩
  rw [update_line_data_all_visible, Bool.and_eq_true, List.all_eq_true,
    List.all_eq_true] at hvis
  rcases hvis with ⟨hv1, hv2⟩
  rw [hcnt, length_filterMap_accepted_of_all
        (fun i hi => by simpa using hv1 i (by simpa using hi)),
      length_filterMap_accepted_of_all
        (fun i hi => by simpa using hv2 i (by simpa using (List.mem_reverse.mp hi)))]
  simp only [List.length_reverse, List.length_range]
  omega

/-- A concrete projection context: identity calibration, identity
intrinsics, identity device transform, 1000x1000 framebuffer. -/
def unit_proj_ctx : ProjCtx := ⟨mat3_id, mat3_id, xform6_id, 1000, 1000⟩

/-- Counterexample to C2 as stated: with the identity projection context
over a 1000x1000 framebuffer and a single-sample centerline whose point
projects to pixel x = 2000 (1000 px outside the framebuffer, beyond the
500 px margin), both walks reject the vertex, so `cnt = 0`, not
`2*(max_idx+1) = 2`. -/
theorem C2_ribbon_cnt_counterexample :
    update_line_data_cnt unit_proj_ctx (fun _ => 2000) (fun _ => 0)
        (fun _ => 1) 0 0 0 = 0 ∧
      ¬ update_line_data_cnt unit_proj_ctx (fun _ => 2000) (fun _ => 0)
          (fun _ => 1) 0 0 0 = 2 * (0 + 1) := by
  constructor <;>
    norm_num [update_line_data_cnt, update_line_data_vertices, line_point_fwd,
      line_point_bwd, calib_frame_to_full_frame, matvecmul3, dot3,
      nvgTransformPoint, mat3_id, xform6_id, proj_margin, unit_proj_ctx,
      List.range_succ]

/-- Witness for C2 (amended) on a concrete fully-visible two-sample line
with TRAJECTORY_SIZE 33. -/
theorem C2_ribbon_cnt_bounds_witness :
    update_line_data_cnt unit_proj_ctx (fun i => (i : ℚ)) (fun _ => 0)
        (fun _ => 1) 0 0 1 ≤ 2 * (1 + 1) ∧
      update_line_data_cnt unit_proj_ctx (fun i => (i : ℚ)) (fun _ => 0)
        (fun _ => 1) 0 0 1 ≤ 2 * 33 ∧
      update_line_data_cnt unit_proj_ctx (fun i => (i : ℚ)) (fun _ => 0)
        (fun _ => 1) 0 0 1 = 2 * (1 + 1) := by
  have h := C2_ribbon_cnt_bounds unit_proj_ctx (fun i => (i : ℚ)) (fun _ => 0)
    (fun _ => 1) 0 0 1 33
  refine ⟨h.1, h.2.1 (by norm_num), h.2.2 ?_⟩
  norm_num [update_line_data_all_visible, line_point_fwd, line_point_bwd,
    calib_frame_to_full_frame, matvecmul3, dot3, nvgTransformPoint, mat3_id,
    xform6_id, proj_margin, unit_proj_ctx, List.range_succ]

/-- Counterexample to C3 as stated: with the identity projection context
over a 1000x1000 framebuffer, the input (1600, 500, 1) projects to the
pixel (1600, 500), i.e. exactly 600 px beyond the right framebuffer edge,
and `calib_frame_to_full_frame` returns visible = false there, where the
claim requires visible = true. -/
theorem C3_projection_margin_counterexample :
    (calib_frame_to_full_frame unit_proj_ctx 1600 500 1).1.x -
        unit_proj_ctx.fb_w = 600 ∧
      (calib_frame_to_full_frame unit_proj_ctx 1600 500 1).2 = false := by
  constructor <;>
    norm_num [calib_frame_to_full_frame, matvecmul3, dot3, nvgTransformPoint,
      mat3_id, xform6_id, proj_margin, unit_proj_ctx]

/-- Claim C3 (amended): for every 3D input point the projection returns
visible = false exactly when the projected pixel falls more than the fixed
margin (500 px) outside the framebuffer bounds; in particular a pixel
landing 400 px outside returns visible = true, while pixels landing 600 px
and 1600 px outside return visible = false. -/
theorem C3_projection_margin (s : ProjCtx) (in_x in_y in_z : ℚ) :
    ((calib_frame_to_full_frame s in_x in_y in_z).2 = false ↔
      ((calib_frame_to_full_frame s in_x in_y in_z).1.x < -proj_margin ∨
       (calib_frame_to_full_frame s in_x in_y in_z).1.x > s.fb_w + proj_margin ∨
       (calib_frame_to_full_frame s in_x in_y in_z).1.y < -proj_margin ∨
       (calib_frame_to_full_frame s in_x in_y in_z).1.y > s.fb_h + proj_margin)) ∧
    proj_margin = 500 ∧
    (calib_frame_to_full_frame unit_proj_ctx 1400 500 1).1.x -
        unit_proj_ctx.fb_w = 400 ∧
    (calib_frame_to_full_frame unit_proj_ctx 1400 500 1).2 = true ∧
    (calib_frame_to_full_frame unit_proj_ctx 1600 500 1).2 = false ∧
    (calib_frame_to_full_frame unit_proj_ctx 2600 500 1).1.x -
        unit_proj_ctx.fb_w = 1600 ∧
    (calib_frame_to_full_frame unit_proj_ctx 2600 500 1).2 = false := by
  refine ⟨?_, rfl, ?_, ?_, ?_, ?_, ?_⟩
  · unfold calib_frame_to_full_frame
    dsimp only
    simp only [Bool.and_eq_false_iff, decide_eq_false_iff_not, not_le]
    tauto
  all_goals
    norm_num [calib_frame_to_full_frame, matvecmul3, dot3, nvgTransformPoint,
      mat3_id, xform6_id, proj_margin, unit_proj_ctx]

theorem apply_screen_dim_mono {b f1 f2 : ℚ} (hb : 0 ≤ b) (h : f1 ≤ f2) :
    apply_screen_dim b f1 ≤ apply_screen_dim b f2 := by
  have hf : ⌊b * f1⌋ ≤ ⌊b * f2⌋ :=
    Int.floor_le_floor (mul_le_mul_of_nonneg_left h hb)
  unfold apply_screen_dim
  dsimp only
  split_ifs <;> omega

theorem screen_dim_select_mode_alert {s : DimState}
    (ha : s.status = UIStatus.alert) :
    screen_dim_select_mode s =
      { s with screen_dim_mode_cur := s.screen_dim_mode_max,
               screen_dim_fade := s.screen_dim_modes_v s.screen_dim_mode_max } := by
  unfold screen_dim_select_mode
  rw [ha]
  simp

theorem screen_dim_select_mode_warning {s : DimState}
    (hw : s.status = UIStatus.warning) :
    screen_dim_select_mode s =
      { s with
        screen_dim_mode_cur := min (s.screen_dim_mode + 1) s.screen_dim_mode_max } := by
  unfold screen_dim_select_mode
  rw [hw]
  simp only [if_true, ite_true]
  split_ifs with h
  · rw [min_eq_right (by omega)]
  · rw [min_eq_left (by omega)]

theorem screen_dim_set_step_fade (s : DimState) :
    (screen_dim_set_step s).screen_dim_fade = s.screen_dim_fade := by
  unfold screen_dim_set_step
  split_ifs <;> rfl

theorem screen_dim_set_step_cur (s : DimState) :
    (screen_dim_set_step s).screen_dim_mode_cur = s.screen_dim_mode_cur := by
  unfold screen_dim_set_step
  split_ifs <;> rfl

theorem screen_dim_set_step_modes (s : DimState) :
    (screen_dim_set_step s).screen_dim_modes_v = s.screen_dim_modes_v := by
  unfold screen_dim_set_step
  split_ifs <;> rfl

theorem screen_dim_ease_cur (s : DimState) (dt : ℚ) :
    (screen_dim_ease s dt).screen_dim_mode_cur = s.screen_dim_mode_cur := by
  unfold screen_dim_ease
  dsimp only
  split_ifs <;> rfl

theorem screen_dim_ease_step (s : DimState) (dt : ℚ) :
    (screen_dim_ease s dt).screen_dim_fade_step = s.screen_dim_fade_step := by
  unfold screen_dim_ease
  dsimp only
  split_ifs <;> rfl

theorem screen_dim_ease_fixed {s : DimState} (dt : ℚ)
    (h : s.screen_dim_fade = s.screen_dim_modes_v s.screen_dim_mode_cur) :
    (screen_dim_ease s dt).screen_dim_fade = s.screen_dim_fade := by
  unfold screen_dim_ease
  dsimp only
  rw [← h]
  simp [lt_irrefl]

theorem screen_dim_ease_fade_bound (s : DimState) {dt : ℚ} (hdt : 0 ≤ dt) :
    |(screen_dim_ease s dt).screen_dim_fade - s.screen_dim_fade| ≤
      |s.screen_dim_fade_step| * dt := by
  have hB : s.screen_dim_fade_step * dt ≤ |s.screen_dim_fade_step| * dt :=
    mul_le_mul_of_nonneg_right (le_abs_self _) hdt
  have hA : -(|s.screen_dim_fade_step| * dt) ≤ s.screen_dim_fade_step * dt := by
    have h := mul_le_mul_of_nonneg_right (neg_abs_le s.screen_dim_fade_step) hdt
    rw [neg_mul] at h
    exact h
  have hC : 0 ≤ |s.screen_dim_fade_step| * dt :=
    mul_nonneg (abs_nonneg _) hdt
  unfold screen_dim_ease
  dsimp only
  split_ifs <;> rw [abs_le] <;> constructor <;> dsimp only <;> linarith

theorem screen_dim_update_fade_started (s : DimState) (dt : ℚ)
    (hs : s.started = true) :
    (screen_dim_update s dt).screen_dim_fade =
      (screen_dim_ease (screen_dim_set_step (screen_dim_select_mode s)) dt).screen_dim_fade := by
  unfold screen_dim_update
  rw [hs]
  rfl

theorem screen_dim_update_cur_started (s : DimState) (dt : ℚ)
    (hs : s.started = true) :
    (screen_dim_update s dt).screen_dim_mode_cur =
      (screen_dim_ease (screen_dim_set_step (screen_dim_select_mode s)) dt).screen_dim_mode_cur := by
  unfold screen_dim_update
  rw [hs]
  rfl

theorem screen_dim_update_step_started (s : DimState) (dt : ℚ)
    (hs : s.started = true) :
    (screen_dim_update s dt).screen_dim_fade_step =
      (screen_dim_ease (screen_dim_set_step (screen_dim_select_mode s)) dt).screen_dim_fade_step := by
  unfold screen_dim_update
  rw [hs]
  rfl

theorem screen_dim_update_alert (s : DimState) (dt : ℚ)
    (hs : s.started = true) (ha : s.status = UIStatus.alert) :
    (screen_dim_update s dt).screen_dim_fade =
      s.screen_dim_modes_v s.screen_dim_mode_max ∧
    (screen_dim_update s dt).screen_dim_mode_cur = s.screen_dim_mode_max := by
  constructor
  · rw [screen_dim_update_fade_started s dt hs, screen_dim_select_mode_alert ha,
      screen_dim_ease_fixed]
    · rw [screen_dim_set_step_fade]
    · rw [screen_dim_set_step_fade, screen_dim_set_step_cur,
        screen_dim_set_step_modes]
  · rw [screen_dim_update_cur_started s dt hs, screen_dim_select_mode_alert ha,
      screen_dim_ease_cur, screen_dim_set_step_cur]

/-- The default screen-dim tier table and tier indices of UIScene
(ui.h lines 905-909), onroad under a critical alert, at fade 1/2. -/
def dim_state_alert : DimState :=
  { started := true
    status := UIStatus.alert
    screen_dim_mode := 2
    screen_dim_mode_max := 2
    screen_dim_mode_cur := 2
    screen_dim_mode_last := 2
    screen_dim_fade := 1/2
    screen_dim_fade_step := 1
    screen_dim_fade_dur_up := 1/2
    screen_dim_fade_dur_down := 2
    screen_dim_modes_v := fun i => if i = 0 then 1/100 else if i = 1 then 1/2 else 1 }

/-- The same scene under a plain warning at the lowest tier. -/
def dim_state_warn : DimState :=
  { dim_state_alert with
    status := UIStatus.warning
    screen_dim_mode := 0
    screen_dim_mode_cur := 0
    screen_dim_mode_last := 0
    screen_dim_fade := 1/100 }

/-- Counterexample to C4 as stated: onroad with the default tier table
(0.01, 0.5, 1.0) and a critical (STATUS_ALERT) state, the update sets
`screen_dim_fade` to `screen_dim_modes_v[screen_dim_mode_max] = 1.0` (full
brightness, the maximum of the tier values), not to the dimmest tier's
target value 0.01. -/
theorem C4_dim_critical_counterexample :
    (screen_dim_update dim_state_alert 0).screen_dim_fade = 1 ∧
    dimmest_tier_value dim_state_alert = 1/100 ∧
    (screen_dim_update dim_state_alert 0).screen_dim_fade ≠
      dimmest_tier_value dim_state_alert := by
  have h := screen_dim_update_alert dim_state_alert 0 rfl rfl
  rw [h.1]
  norm_num [dim_state_alert, dimmest_tier_value]

/-- Claim C4 (amended): whenever the vehicle state is critical
(STATUS_ALERT) during an onroad tick, the update sets `screen_dim_fade` in
that same update, without easing and for every `dt`, to the target value of
the maximum-index tier `screen_dim_mode_max` (with the default table this
is 1.0, full brightness, not the dimmest tier); a warning (STATUS_WARNING)
only moves the current tier one step up (clamped at the maximum tier) and
changes the fade by at most `|screen_dim_fade_step| * dt`, i.e. eased, not
snapped. -/
theorem C4_dim_critical_snaps (s : DimState) (dt : ℚ) (hs : s.started = true) :
    (s.status = UIStatus.alert →
      (screen_dim_update s dt).screen_dim_fade =
        s.screen_dim_modes_v s.screen_dim_mode_max ∧
      (screen_dim_update s dt).screen_dim_mode_cur = s.screen_dim_mode_max) ∧
    (s.status = UIStatus.warning → 0 ≤ dt →
      (screen_dim_update s dt).screen_dim_mode_cur =
        min (s.screen_dim_mode + 1) s.screen_dim_mode_max ∧
      |(screen_dim_update s dt).screen_dim_fade - s.screen_dim_fade| ≤
        |(screen_dim_update s dt).screen_dim_fade_step| * dt) := by
  constructor
  · intro ha
    exact screen_dim_update_alert s dt hs ha
  · intro hw hdt
    constructor
    · rw [screen_dim_update_cur_started s dt hs, screen_dim_ease_cur,
        screen_dim_set_step_cur, screen_dim_select_mode_warning hw]
    · rw [screen_dim_update_fade_started s dt hs,
        screen_dim_update_step_started s dt hs, screen_dim_ease_step]
      have hXfade : (screen_dim_set_step (screen_dim_select_mode s)).screen_dim_fade
          = s.screen_dim_fade := by
        rw [screen_dim_set_step_fade, screen_dim_select_mode_warning hw]
      rw [← hXfade]
      exact screen_dim_ease_fade_bound _ hdt

/-- Witness for C4 (amended) at the concrete default scenes: a critical
alert snaps to the maximum tier's value for dt = 0.1 s, and a warning at
tier 0 moves the tier to 1 with the fade eased. -/
theorem C4_dim_critical_snaps_witness :
    ((screen_dim_update dim_state_alert (1/10)).screen_dim_fade =
        dim_state_alert.screen_dim_modes_v dim_state_alert.screen_dim_mode_max ∧
      (screen_dim_update dim_state_alert (1/10)).screen_dim_mode_cur =
        dim_state_alert.screen_dim_mode_max) ∧
    ((screen_dim_update dim_state_warn (1/10)).screen_dim_mode_cur =
        min (dim_state_warn.screen_dim_mode + 1)
          dim_state_warn.screen_dim_mode_max ∧
      |(screen_dim_update dim_state_warn (1/10)).screen_dim_fade -
          dim_state_warn.screen_dim_fade| ≤
        |(screen_dim_update dim_state_warn (1/10)).screen_dim_fade_step| *
          (1/10)) :=
  ⟨(C4_dim_critical_snaps dim_state_alert (1/10) rfl).1 rfl,
   (C4_dim_critical_snaps dim_state_warn (1/10) rfl).2 rfl (by norm_num)⟩

theorem stdClamp_ge_lo {v lo hi : ℚ} (h : lo ≤ hi) : lo ≤ stdClamp v lo hi := by
  unfold stdClamp
  split_ifs <;> linarith

theorem stdClamp_le_hi {v lo hi : ℚ} (h : lo ≤ hi) : stdClamp v lo hi ≤ hi := by
  unfold stdClamp
  split_ifs <;> linarith

/-- Counterexample to C5 as stated: with MIN_DRAW_DISTANCE = 10,
MAX_DRAW_DISTANCE = 100, a trajectory reaching 50 m and a lead at 0.5 m
with probability 0.6, update_model computes a draw distance of 0.65 m,
strictly below the configured minimum draw distance of 10 m: the lead
shortening is clamped below at 0 (ui.cc line 181), not at the configured
minimum as the claim states. -/
theorem C5_lead_shortening_counterexample :
    update_model_max_distance 50 10 100 (3/5) (1/2) = 13/20 ∧
      (13/20 : ℚ) < 10 := by
  constructor
  · norm_num [update_model_max_distance, stdClamp, min_def]
  · norm_num

/-- Claim C5 (amended): when a lead with probability above 0.5 is present,
the path draw distance becomes `clamp(lead_d - min(0.35*lead_d, 10), 0,
base)` where `lead_d` is twice the lead's longitudinal distance and `base`
the lead-free clamped draw distance — equal to 65% of `lead_d` (before the
outer clamp) whenever `0.35*lead_d ≤ 10` — so it is never negative and
never longer than the lead-free distance; the lower clamp is 0, not the
configured minimum draw distance. -/
theorem C5_lead_path_shortening (posX_last minDraw maxDraw leadProb leadX0 : ℚ)
    (hmin : 0 ≤ minDraw) (hminmax : minDraw ≤ maxDraw)
    (hprob : leadProb > 1/2) :
    (0 ≤ update_model_max_distance posX_last minDraw maxDraw leadProb leadX0 ∧
     update_model_max_distance posX_last minDraw maxDraw leadProb leadX0 ≤
       stdClamp posX_last minDraw maxDraw) ∧
    (leadX0 * 2 * (35/100) ≤ 10 →
      update_model_max_distance posX_last minDraw maxDraw leadProb leadX0 =
        stdClamp ((65/100) * (leadX0 * 2)) 0
          (stdClamp posX_last minDraw maxDraw)) := by
  have hbase : (0:ℚ) ≤ stdClamp posX_last minDraw maxDraw :=
    le_trans hmin (stdClamp_ge_lo hminmax)
  unfold update_model_max_distance
  rw [if_pos hprob]
  dsimp only
  constructor
  · exact ⟨stdClamp_ge_lo hbase, stdClamp_le_hi hbase⟩
  · intro hle
    rw [min_eq_left hle]
    congr 1
    ring

/-- Witness for C5 (amended): lead at 5 m with probability 0.6, lead-free
draw distance 50 m; the draw distance becomes clamp(0.65*10, 0, 50) =
6.5 m. -/
theorem C5_lead_path_shortening_witness :
    ((0 ≤ update_model_max_distance 50 10 100 (3/5) 5 ∧
      update_model_max_distance 50 10 100 (3/5) 5 ≤ stdClamp 50 10 100) ∧
     update_model_max_distance 50 10 100 (3/5) 5 =
       stdClamp ((65/100) * (5 * 2)) 0 (stdClamp 50 10 100)) ∧
    update_model_max_distance 50 10 100 (3/5) 5 = 13/2 := by
  have h := C5_lead_path_shortening 50 10 100 (3/5) 5 (by norm_num)
    (by norm_num) (by norm_num)
  have h2 := h.2 (by norm_num)
  refine ⟨⟨h.1, h2⟩, ?_⟩
  rw [h2]
  norm_num [stdClamp]

theorem world_visible_step_or (v a : Bool) :
    world_visible_step v a = (v || a) := by
  cases a <;> cases v <;> rfl

theorem world_visible_foldl_or (l : List Bool) (v : Bool) :
    l.foldl world_visible_step v = (v || l.any id) := by
  induction l generalizing v with
  | nil => simp
  | cons a as ih =>
    rw [List.foldl_cons, world_visible_step_or, ih, List.any_cons]
    cases a <;> cases v <;> simp

/-- Claim C6: `world_objects_visible` is false from initialisation, after a
run of ticks it is true exactly when some tick of the run received a
liveCalibration message, and the world-space geometry (gated on the flag by
ui_draw_vision) is not drawn in any tick of a prefix in which no
liveCalibration message has yet arrived. -/
theorem C6_world_objects_visible (ticks : List Bool) (k : ℕ) :
    world_visible_after [] = false ∧
    (world_visible_after ticks = true ↔ ∃ b ∈ ticks, b = true) ∧
    ((∀ b ∈ ticks.take (k + 1), b = false) →
      world_drawn_in_tick ticks k = false) := by
  refine ⟨rfl, ?_, ?_⟩
  · rw [world_visible_after, world_visible_foldl_or, Bool.false_or,
      List.any_eq_true]
    simp
  · intro hall
    rw [world_drawn_in_tick, ui_draw_vision_draws_world, world_visible_after,
      world_visible_foldl_or, Bool.false_or]
    rw [List.any_eq_false]
    intro b hb
    simp [hall b hb]

/-- Witness for C6: a run whose first tick has no calibration message and
whose second tick receives one. -/
theorem C6_world_objects_visible_witness :
    world_visible_after [] = false ∧
    (world_visible_after [false, true] = true ↔
      ∃ b ∈ [false, true], b = true) ∧
    world_drawn_in_tick [false, true] 0 = false := by
  have h := C6_world_objects_visible [false, true] 0
  exact ⟨h.1, h.2.1, h.2.2 (by decide)⟩

/-- Claim C7: when no pandaState message arrived this tick and the topic's
last-received frame number is more than 5*UI_FREQ = 100 frames old (≈5 s at
20 Hz), the displayed pandaType transitions to the UNKNOWN sentinel; while
not yet stale the current value is kept — the update always yields a value
(the old one or the sentinel), never an error. -/
theorem C7_pandaState_staleness (frame rcv_frame : ℕ)
    (incoming cur : PandaType) :
    (frame - rcv_frame > 5 * UI_FREQ →
      pandaState_update false frame rcv_frame incoming cur =
        PandaType.unknown) ∧
    (¬ frame - rcv_frame > 5 * UI_FREQ →
      pandaState_update false frame rcv_frame incoming cur = cur) ∧
    (pandaState_update false frame rcv_frame incoming cur = cur ∨
      pandaState_update false frame rcv_frame incoming cur =
        PandaType.unknown) ∧
    5 * UI_FREQ = 100 := by
  unfold pandaState_update
  split_ifs with h1 h2 <;> simp_all [UI_FREQ]

/-- Witness for C7: silence with the last message 101 frames old yields
UNKNOWN; silence with the last message 50 frames old keeps the value. -/
theorem C7_pandaState_staleness_witness :
    pandaState_update false 201 100 PandaType.uno PandaType.dos =
      PandaType.unknown ∧
    pandaState_update false 150 100 PandaType.uno PandaType.dos =
      PandaType.dos :=
  ⟨(C7_pandaState_staleness 201 100 PandaType.uno PandaType.dos).1
      (by norm_num [UI_FREQ]),
   (C7_pandaState_staleness 150 100 PandaType.uno PandaType.dos).2.1
      (by norm_num [UI_FREQ])⟩

/-- Claim C9: the layout / hit-region computation of ui_draw_measures is
idempotent: running it a second time in the same tick with unchanged scene
inputs (slot counts, framebuffer size) leaves the bounding rectangle and
every per-slot touch rectangle exactly as the first run produced them. -/
theorem C9_measures_layout_idempotent (s : MeasuresState) :
    ui_draw_measures_layout (ui_draw_measures_layout s) =
      ui_draw_measures_layout s := by
  by_cases h : s.measure_cur_num_slots ≠ 0
  · have h1 : ui_draw_measures_layout s =
        { s with
          measure_slots_rect := (ui_draw_measures_rects s.measure_cur_num_slots
            s.measure_max_num_slots s.fb_w s.fb_h).1,
          measure_slot_touch_rects := fun i =>
            if i < s.measure_cur_num_slots then
              (ui_draw_measures_rects s.measure_cur_num_slots
                s.measure_max_num_slots s.fb_w s.fb_h).2 i
            else s.measure_slot_touch_rects i } := by
      unfold ui_draw_measures_layout
      rw [if_pos h]
    rw [h1]
    unfold ui_draw_measures_layout
    dsimp only
    rw [if_pos h]
    congr 1
    funext i
    by_cases hi : i < s.measure_cur_num_slots <;> simp [hi]
  · have hid : ui_draw_measures_layout s = s := by
      unfold ui_draw_measures_layout
      rw [if_neg h]
    rw [hid]
    exact hid

/-- Claim C10: lead chevrons are drawn only when longitudinal control is
active; lead one is drawn exactly when its model probability exceeds 0.5;
lead two exactly when its probability exceeds 0.5 and its longitudinal
distance differs from lead one's by more than 3.0 m; and update_leads
recomputes a lead's stored screen vertex only while its probability exceeds
0.5, so a lead dropping to or below the threshold retains its previously
computed vertex. -/
theorem C10_lead_draw_gating (lc : Bool) (prob1 prob2 x1 x2 : ℚ)
    (s : ProjCtx) (posX posZ : ℕ → ℚ) (T : ℕ)
    (leadProb leadX0 leadY0 : Fin 2 → ℚ) (vold : Fin 2 → vertex_data) :
    ((ui_draw_world_leads lc prob1 prob2 x1 x2).1 = true ↔
      lc = true ∧ prob1 > 1/2) ∧
    ((ui_draw_world_leads lc prob1 prob2 x1 x2).2 = true ↔
      lc = true ∧ prob2 > 1/2 ∧ |x1 - x2| > 3) ∧
    (∀ i : Fin 2, ¬ leadProb i > 1/2 →
      update_leads s posX posZ T leadProb leadX0 leadY0 vold i = vold i) := by
  refine ⟨?_, ?_, ?_⟩
  · unfold ui_draw_world_leads
    cases lc <;> simp
  · unfold ui_draw_world_leads
    cases lc <;> simp [and_assoc]
  · intro i hi
    unfold update_leads
    rw [if_neg hi]

/-- Witness for C10: longitudinal control on, both leads above threshold
and separated by 8 m; a stored vertex is retained when the lead probability
drops to 0.25. -/
theorem C10_lead_draw_gating_witness :
    ((ui_draw_world_leads true (3/4) (3/4) 10 2).1 = true ↔
      true = true ∧ (3/4 : ℚ) > 1/2) ∧
    ((ui_draw_world_leads true (3/4) (3/4) 10 2).2 = true ↔
      true = true ∧ (3/4 : ℚ) > 1/2 ∧ |(10 : ℚ) - 2| > 3) ∧
    update_leads unit_proj_ctx (fun _ => 0) (fun _ => 0) 33 (fun _ => 1/4)
      (fun _ => 0) (fun _ => 0) (fun _ => ⟨5, 6⟩) 0 = ⟨5, 6⟩ := by
  have h := C10_lead_draw_gating true (3/4) (3/4) 10 2 unit_proj_ctx
    (fun _ => 0) (fun _ => 0) 33 (fun _ => 1/4) (fun _ => 0) (fun _ => 0)
    (fun _ => ⟨5, 6⟩)
  exact ⟨h.1, h.2.1, h.2.2 0 (by norm_num)⟩

end OpenpilotUI
